import Mathlib

/-!
Verification of the AI-Invoice-Processing-System core: a shallow embedding
of `src/anomaly_detector.py` (anomaly scoring) and `src/database.py`
(invoice store and query engine), with theorems settling the frozen claims.

Modelling conventions:
* Python decimal/float amounts are modelled as exact rationals (`ℚ`).
* A parsed `datetime` is modelled as an epoch-day number (`ℤ`, day 0 =
  1970-01-01, a Thursday); a missing or unparseable `Invoice_Date` string
  (for which `datetime.strptime` raises and the source's `try/except`
  skips the comparison) is modelled as `none`.
* Optional / nullable dict fields are modelled with `Option`.
-/

/-- One invoice record as consumed by `AdvancedAnomalyDetector.analyze_invoice`
(a row of the working `DataFrame`).  `taxAmount = none` models an absent
`Tax_Amount` key; `invoiceDate = none` models a missing or unparseable
`Invoice_Date`. -/
structure Invoice where
  invoiceId : String
  vendorName : String
  totalAmount : ℚ
  taxAmount : Option ℚ
  invoiceDate : Option ℤ
deriving DecidableEq

/-- Insertion into a list sorted by the boolean relation `le`. -/
def insertBy (le : α → α → Bool) (a : α) : List α → List α
  | [] => [a]
  | b :: t => if le a b then a :: b :: t else b :: insertBy le a t

/-- Insertion sort by the boolean relation `le` (models the sorting done by
`numpy` and by the SQL `ORDER BY`). -/
def sortBy (le : α → α → Bool) (l : List α) : List α := l.foldr (insertBy le) []

/-- Ascending sort of rationals (models `numpy`'s internal sort used by
`np.percentile`). -/
def sortedAsc (l : List ℚ) : List ℚ := sortBy (fun a b => decide (a ≤ b)) l

/-- `np.percentile(xs, q)` with the default linear interpolation:
on the ascending sort `s` of the sample, with `h = (n-1)·q/100`,
the result is `s[⌊h⌋] + (h - ⌊h⌋)·(s[⌊h⌋+1] - s[⌊h⌋])`. -/
def percentile (s : List ℚ) (q : ℚ) : ℚ :=
  let n := s.length
  let h : ℚ := ((n : ℚ) - 1) * q / 100
  let i : ℕ := h.floor.toNat
  let lo := s.getD i 0
  let hi := s.getD (i + 1) lo
  lo + (h - (h.floor : ℚ)) * (hi - lo)

/-- Python's `round` to an integer: round-half-to-even (banker's rounding). -/
def roundHalfEven (x : ℚ) : ℤ :=
  let f := x.floor
  let r := x - (f : ℚ)
  if r < 1/2 then f
  else if 1/2 < r then f + 1
  else if 2 ∣ f then f else f + 1

/-- Python's `round(x, 2)`. -/
def round2 (x : ℚ) : ℚ := (roundHalfEven (x * 100) : ℚ) / 100

/-- `datetime.weekday()` of an epoch-day number: Monday = 0 … Sunday = 6
(day 0 = 1970-01-01 was a Thursday, weekday 3). -/
def weekday (d : ℤ) : ℤ := (d + 3) % 7

/-- Whether `pat` is an initial run of `s` (character lists). -/
def startsWithChars : List Char → List Char → Bool
  | [], _ => true
  | _ :: _, [] => false
  | a :: as, b :: bs => a == b && startsWithChars as bs

/-- Python's `s.startswith(pat)`, modelled on the character lists. -/
def pyStartsWith (s pat : String) : Bool := startsWithChars pat.toList s.toList

/-- Whether `pat` occurs as a contiguous run inside `s` (character lists). -/
def hasSubChars (pat : List Char) : List Char → Bool
  | [] => startsWithChars pat []
  | s =>
    startsWithChars pat s ||
    match s with
    | [] => false
    | _ :: rest => hasSubChars pat rest

namespace AnomalyDetector

/-- `_is_duplicate_invoice(invoice, all_invoices)`: exact duplicate when more
than one record of the working set shares the (vendor, id) pair; otherwise a
fuzzy duplicate when some same-vendor record with a different id has an
amount within 1% of the candidate's and a parseable date within 7 days of
the candidate's parseable date.  Sentinel vendor/id records are exempt.
An unparseable candidate date makes `datetime.strptime` raise, so the
source's `try` block skips the whole fuzzy check; an unparseable date on a
compared record makes the inner `try` skip just that record. -/
def is_duplicate_invoice (invoice : Invoice) (all_invoices : Option (List Invoice)) : Bool :=
  match all_invoices with
  | none => false
  | some all =>
    if invoice.vendorName == "UNKNOWN_VENDOR" || invoice.invoiceId == "NOT_FOUND" then false
    else
      let exact_duplicates := all.filter fun r =>
        r.vendorName == invoice.vendorName && r.invoiceId == invoice.invoiceId
      if exact_duplicates.length > 1 then true
      else
        match invoice.invoiceDate with
        | none => false
        | some d =>
          let amount_tolerance := invoice.totalAmount * (1/100)
          let similar_invoices := all.filter fun r =>
            r.vendorName == invoice.vendorName &&
            decide (|r.totalAmount - invoice.totalAmount| ≤ amount_tolerance) &&
            r.invoiceId != invoice.invoiceId
          similar_invoices.any fun r =>
            match r.invoiceDate with
            | some d2 => decide (|d2 - d| ≤ 7)
            | none => false

/-- `_check_business_rules(invoice, all_invoices)`. -/
def check_business_rules (invoice : Invoice) (all_invoices : Option (List Invoice)) : List String :=
  (if is_duplicate_invoice invoice all_invoices then ["POTENTIAL_DUPLICATE"] else []) ++
  (if invoice.totalAmount > 50000 then ["EXTREME_AMOUNT_HIGH"]
   else if invoice.totalAmount < 10 then ["EXTREME_AMOUNT_LOW"] else []) ++
  (if (invoice.totalAmount / 1000).den == 1 && invoice.totalAmount > 5000 then
    ["ROUND_AMOUNT_SUSPICIOUS"] else []) ++
  (match invoice.taxAmount with
   | some t =>
     if t > 0 && decide (|t - round2 (invoice.totalAmount * (1/10))| > 1) then
       ["TAX_CALCULATION_ANOMALY"] else []
   | none => []) ++
  (if invoice.vendorName == "UNKNOWN_VENDOR" || invoice.vendorName == "NOT_FOUND" then
    ["MISSING_VENDOR_INFO"] else []) ++
  (if invoice.invoiceId == "NOT_FOUND" || invoice.invoiceId == "UNKNOWN" then
    ["MISSING_INVOICE_ID"] else [])

/-- `_check_statistical_anomalies(invoice, all_invoices)`.  The fitted
`IsolationForest`'s outlier predicate on the current amount is abstracted as
the parameter `iso` (it is a fitted stochastic sklearn model; nothing else
about it is used by the source).  The z-score comparison
`abs((x - mean)/std) > 3` is expressed as the equivalent exact comparison
`(x - mean)² > 9·variance` when the population variance is nonzero; when the
standard deviation is zero, numpy's float division yields `inf` (`x ≠ mean`,
comparison true) or `nan` (`x = mean`, comparison false). -/
def check_statistical_anomalies (iso : ℚ → Bool) (invoice : Invoice)
    (all_invoices : Option (List Invoice)) : List String :=
  match all_invoices with
  | none => []
  | some all =>
    if all.length < 10 then [] else
    let amounts := all.map (·.totalAmount)
    let n : ℚ := amounts.length
    let mean := amounts.sum / n
    let variance := (amounts.map fun a => (a - mean) ^ 2).sum / n
    let q1 := percentile (sortedAsc amounts) 25
    let q3 := percentile (sortedAsc amounts) 75
    let iqr := q3 - q1
    let lower_bound := q1 - (3/2) * iqr
    let upper_bound := q3 + (3/2) * iqr
    (if iso invoice.totalAmount then ["STATISTICAL_OUTLIER"] else []) ++
    (if (if variance == 0 then invoice.totalAmount != mean
         else decide ((invoice.totalAmount - mean) ^ 2 > 9 * variance)) then
      ["EXTREME_Z_SCORE"] else []) ++
    (if invoice.totalAmount < lower_bound || invoice.totalAmount > upper_bound then
      ["IQR_OUTLIER"] else [])

/-- Historical amount statistics of one vendor, as the shape read by
`_check_vendor_behavior` from `_get_vendor_statistics`'s result. -/
structure VendorStats where
  avg_amount : ℚ
  max_amount : ℚ
  std_amount : ℚ
deriving DecidableEq

/-- `_get_vendor_statistics(vendor_name)`: the source is an explicit
placeholder that returns `None` unconditionally ("return mock data or
compute from available invoices" is not implemented). -/
def get_vendor_statistics (_vendor_name : String) : Option VendorStats := none

/-- The body of `_check_vendor_behavior`, parameterized by the vendor
statistics it obtained (so the flagging conditions can be stated for an
arbitrary statistics record as well as for the placeholder's `None`). -/
def check_vendor_behavior_with (invoice : Invoice) (vendor_stats : Option VendorStats) :
    List String :=
  if invoice.vendorName == "UNKNOWN_VENDOR" || invoice.vendorName == "NOT_FOUND" then []
  else
    match vendor_stats with
    | none => []
    | some s =>
      if s.avg_amount > 0 then
        (if invoice.totalAmount / s.avg_amount > 3 then ["VENDOR_AMOUNT_DEVIATION"] else []) ++
        (if invoice.totalAmount > s.max_amount * (3/2) then
          ["EXCEEDS_VENDOR_HISTORICAL_MAX"] else [])
      else []

/-- `_check_vendor_behavior(invoice)`. -/
def check_vendor_behavior (invoice : Invoice) : List String :=
  check_vendor_behavior_with invoice (get_vendor_statistics invoice.vendorName)

/-- `_check_temporal_anomalies(invoice, all_invoices)`: flags a weekend
invoice date; an unparseable date raises inside the `try` and yields no
flag. -/
def check_temporal_anomalies (invoice : Invoice) (_all_invoices : Option (List Invoice)) :
    List String :=
  match invoice.invoiceDate with
  | none => []
  | some d => if weekday d ≥ 5 then ["WEEKEND_INVOICE"] else []

/-- `_calculate_risk_level(risk_score, amount)`: adds the amount-based bonus
to its local copy of the score, then thresholds. -/
def calculate_risk_level (risk_score : ℕ) (amount : ℚ) : String :=
  let adjusted := if amount > 10000 then risk_score + 2
                  else if amount > 5000 then risk_score + 1
                  else risk_score
  if adjusted ≥ 5 then "High" else if adjusted ≥ 3 then "Medium" else "Low"

/-- `_categorize_anomaly(flags)`. -/
def categorize_anomaly (flags : List String) : String :=
  if flags.contains "POTENTIAL_DUPLICATE" then "Duplicate"
  else if flags.any (fun f => pyStartsWith f "EXTREME_AMOUNT") then "Extreme Amount"
  else if flags.any (fun f =>
    f == "STATISTICAL_OUTLIER" || f == "EXTREME_Z_SCORE" || f == "IQR_OUTLIER") then
    "Statistical Anomaly"
  else if flags.any (fun f => pyStartsWith f "VENDOR_") then "Vendor Pattern Anomaly"
  else if flags.any (fun f => f == "MISSING_VENDOR_INFO" || f == "MISSING_INVOICE_ID") then
    "Data Quality Issue"
  else "No Anomaly"

/-- `_get_anomaly_severity(anomaly_type)`. -/
def get_anomaly_severity (t : String) : String :=
  if t == "POTENTIAL_DUPLICATE" then "High"
  else if t == "EXTREME_AMOUNT_HIGH" then "High"
  else if t == "STATISTICAL_OUTLIER" then "Medium"
  else if t == "EXTREME_Z_SCORE" then "High"
  else if t == "IQR_OUTLIER" then "Medium"
  else if t == "VENDOR_AMOUNT_DEVIATION" then "Medium"
  else if t == "EXCEEDS_VENDOR_HISTORICAL_MAX" then "High"
  else if t == "MISSING_VENDOR_INFO" then "Low"
  else if t == "MISSING_INVOICE_ID" then "Low"
  else if t == "TAX_CALCULATION_ANOMALY" then "Medium"
  else if t == "ROUND_AMOUNT_SUSPICIOUS" then "Low"
  else if t == "WEEKEND_INVOICE" then "Low"
  else "Low"

/-- `_calculate_amount_impact(anomaly_type, invoice_data)`. -/
def calculate_amount_impact (t : String) (invoice : Invoice) : ℚ :=
  if t == "POTENTIAL_DUPLICATE" then invoice.totalAmount
  else if t == "EXTREME_AMOUNT_HIGH" then invoice.totalAmount * (1/10)
  else if t == "STATISTICAL_OUTLIER" then invoice.totalAmount * (1/20)
  else if t == "TAX_CALCULATION_ANOMALY" then
    |invoice.taxAmount.getD 0 - invoice.totalAmount * (1/10)|
  else 0

/-- One entry of the `anomaly_details` list built by `analyze_invoice`
(the human-readable `description`, a pure formatting string, is not
modelled; no property depends on it). -/
structure AnomalyDetail where
  type : String
  severity : String
  amount_impact : ℚ
deriving DecidableEq

/-- The dict returned by `analyze_invoice`. -/
structure AnalysisResult where
  flags : List String
  risk_level : String
  anomaly_type : String
  risk_score : ℕ
  anomaly_details : List AnomalyDetail
deriving DecidableEq

/-- `analyze_invoice(invoice_data, all_invoices)`, parameterized (like
`check_statistical_anomalies`) by the fitted isolation-forest predicate. -/
def analyze_invoice (iso : ℚ → Bool) (invoice : Invoice)
    (all_invoices : Option (List Invoice)) : AnalysisResult :=
  let basic_flags := check_business_rules invoice all_invoices
  let statistical_flags := check_statistical_anomalies iso invoice all_invoices
  let vendor_flags := check_vendor_behavior invoice
  let temporal_flags := check_temporal_anomalies invoice all_invoices
  let flags := basic_flags ++ statistical_flags ++ vendor_flags ++ temporal_flags
  let risk_score := basic_flags.length + statistical_flags.length * 2 +
    vendor_flags.length + temporal_flags.length
  { flags := flags
    risk_level := calculate_risk_level risk_score invoice.totalAmount
    anomaly_type := categorize_anomaly flags
    risk_score := risk_score
    anomaly_details := flags.map fun f =>
      { type := f
        severity := get_anomaly_severity f
        amount_impact := calculate_amount_impact f invoice } }

end AnomalyDetector

namespace InvoiceDB

/-!
Shallow embedding of `src/database.py` (`InvoiceDB` over SQLite).

* A table is a list of rows (insertion order); AUTOINCREMENT ids and the
  `created_at`/`processed_at` timestamps are not modelled (no property
  depends on them).
* `DATE` values are modelled as epoch-day numbers (`ℤ`); SQLite compares
  the stored ISO `YYYY-MM-DD` strings lexicographically, which is
  order-isomorphic to the day number.
* A Python `None` bound to a `NOT NULL` column raises `IntegrityError`,
  which each method's `except` turns into a `False` result after
  `rollback()` (or, for `save_anomaly`, by never committing); such
  possibly-`None` inputs are modelled as `Option` fields, and each
  operation returns the new state together with its boolean result.
* SQLite does not enforce the declared `FOREIGN KEY` (the source never
  issues `PRAGMA foreign_keys = ON`), so inserting an anomaly row whose
  `invoice_id` has no parent invoice row succeeds.
-/

/-- A row of the `invoices` table. -/
structure StoredInvoice where
  invoice_id : String
  vendor_name : String
  invoice_date : ℤ
  due_date : Option ℤ
  total_amount : ℚ
  tax_amount : Option ℚ
  item_description : String
  payment_terms : String
  department : String
  source_type : String
  status : String
  risk_level : String
  anomaly_type : String
deriving DecidableEq

/-- A row of the `anomalies` table. -/
structure AnomalyRow where
  invoice_id : String
  anomaly_type : String
  description : String
  severity : String
  amount_impact : ℚ
deriving DecidableEq

/-- A row of the `processing_log` table. -/
structure LogRow where
  invoice_id : String
  action : String
  details : String
deriving DecidableEq

/-- The three tables created by `_init_database`. -/
structure DBState where
  invoices : List StoredInvoice
  anomalies : List AnomalyRow
  processing_log : List LogRow
deriving DecidableEq

/-- The empty store right after `_init_database`. -/
def DBState.init : DBState := ⟨[], [], []⟩

/-- The `invoice_data` dict passed to `save_invoice`.  Fields bound to
`NOT NULL` columns are `Option`-typed (`none` models a missing key or a
Python `None`, either of which makes the insert fail); the remaining
fields go to nullable columns or carry `.get` defaults, so their value
can never make the write fail and they are modelled already defaulted. -/
structure SaveInvoiceInput where
  invoice_id : Option String
  vendor_name : Option String
  invoice_date : Option ℤ
  total_amount : Option ℚ
  due_date : Option ℤ
  tax_amount : Option ℚ
  item_description : String
  payment_terms : String
  department : String
  source_type : String
  status : String
  risk_level : String
  anomaly_type : String
deriving DecidableEq

/-- `save_invoice(invoice_data)`: `INSERT OR REPLACE` keyed on the `UNIQUE`
`invoice_id` column (the conflicting row, if any, is deleted and the new
row inserted), plus a `SAVE` entry in the processing log, committed
together; on failure everything is rolled back and `False` returned. -/
def save_invoice (db : DBState) (inp : SaveInvoiceInput) : DBState × Bool :=
  match inp.invoice_id, inp.vendor_name, inp.invoice_date, inp.total_amount with
  | some id, some vendor, some date, some amount =>
    let row : StoredInvoice :=
      { invoice_id := id
        vendor_name := vendor
        invoice_date := date
        due_date := inp.due_date
        total_amount := amount
        tax_amount := inp.tax_amount
        item_description := inp.item_description
        payment_terms := inp.payment_terms
        department := inp.department
        source_type := inp.source_type
        status := inp.status
        risk_level := inp.risk_level
        anomaly_type := inp.anomaly_type }
    let log_row : LogRow :=
      { invoice_id := id
        action := "SAVE"
        details := "Invoice saved/updated with risk level: " ++ inp.risk_level }
    ({ db with
        invoices := (db.invoices.filter fun r => r.invoice_id ≠ id) ++ [row]
        processing_log := db.processing_log ++ [log_row] }, true)
  | _, _, _, _ => (db, false)

/-- `save_anomaly(invoice_id, anomaly_type, description, severity,
amount_impact)`: a single insert into `anomalies`; a `None` in a
`NOT NULL` column fails and leaves the store unchanged.  No check that a
parent invoice row exists is performed. -/
def save_anomaly (db : DBState) (invoice_id : Option String) (anomaly_type : Option String)
    (description : String) (severity : String) (amount_impact : ℚ) : DBState × Bool :=
  match invoice_id, anomaly_type with
  | some id, some t =>
    ({ db with anomalies := db.anomalies ++
        [{ invoice_id := id, anomaly_type := t, description := description,
           severity := severity, amount_impact := amount_impact }] }, true)
  | _, _ => (db, false)

/-- `update_invoice_status(invoice_id, status, notes)`: an `UPDATE` that
touches zero or more rows (never failing on a missing id), plus a
`STATUS_UPDATE` log entry, committed together. -/
def update_invoice_status (db : DBState) (invoice_id : Option String) (status : String)
    (notes : Option String) : DBState × Bool :=
  match invoice_id with
  | some id =>
    let notes_text := match notes with
      | some n => if n == "" then "No notes" else n
      | none => "No notes"
    let log_row : LogRow :=
      { invoice_id := id
        action := "STATUS_UPDATE"
        details := "Status changed to " ++ status ++ ". Notes: " ++ notes_text }
    ({ db with
        invoices := db.invoices.map fun r =>
          if r.invoice_id == id then { r with status := status } else r
        processing_log := db.processing_log ++ [log_row] }, true)
  | none => (db, false)

/-- One call against the store, for reasoning about arbitrary operation
sequences. -/
inductive StoreOp where
  | save (inp : SaveInvoiceInput)
  | anomaly (invoice_id : Option String) (anomaly_type : Option String)
      (description : String) (severity : String) (amount_impact : ℚ)
  | statusUpdate (invoice_id : Option String) (status : String) (notes : Option String)
deriving DecidableEq

/-- Apply one store operation. -/
def applyOp (db : DBState) : StoreOp → DBState × Bool
  | .save inp => save_invoice db inp
  | .anomaly id t d s a => save_anomaly db id t d s a
  | .statusUpdate id s n => update_invoice_status db id s n

/-- Run a sequence of store operations from the freshly initialized store. -/
def runOps (ops : List StoreOp) : DBState :=
  ops.foldl (fun db op => (applyOp db op).1) DBState.init

/-- The filter dict accepted by `search_invoices` (`none` = key absent). -/
structure SearchFilters where
  vendor : Option String
  start_date : Option ℤ
  end_date : Option ℤ
  min_amount : Option ℚ
  max_amount : Option ℚ
  risk_level : Option String
  anomaly_type : Option String
  status : Option String
deriving DecidableEq

/-- The empty filter dict. -/
def SearchFilters.empty : SearchFilters := ⟨none, none, none, none, none, none, none, none⟩

/-- `vendor_name LIKE '%' || pat || '%'` (ASCII case-insensitive). -/
def likeContains (s pat : String) : Bool :=
  hasSubChars pat.toLower.toList s.toLower.toList

/-- The WHERE clause built by `search_invoices`.  The source guards each
filter with Python truthiness (`if filters.get('vendor'):` …), so an empty
string or a numeric `0` bound leaves that predicate out of the query. -/
def rowMatches (f : SearchFilters) (r : StoredInvoice) : Bool :=
  (match f.vendor with
   | some v => if v == "" then true else likeContains r.vendor_name v
   | none => true) &&
  (match f.start_date with
   | some d => decide (r.invoice_date ≥ d)
   | none => true) &&
  (match f.end_date with
   | some d => decide (r.invoice_date ≤ d)
   | none => true) &&
  (match f.min_amount with
   | some m => if m == 0 then true else decide (r.total_amount ≥ m)
   | none => true) &&
  (match f.max_amount with
   | some m => if m == 0 then true else decide (r.total_amount ≤ m)
   | none => true) &&
  (match f.risk_level with
   | some v => if v == "" then true else r.risk_level == v
   | none => true) &&
  (match f.anomaly_type with
   | some v => if v == "" then true else r.anomaly_type == v
   | none => true) &&
  (match f.status with
   | some v => if v == "" then true else r.status == v
   | none => true)

/-- `ORDER BY invoice_date DESC, total_amount DESC`. -/
def orderLe (a b : StoredInvoice) : Bool :=
  decide (b.invoice_date < a.invoice_date) ||
  (b.invoice_date == a.invoice_date && decide (b.total_amount ≤ a.total_amount))

/-- The dict returned by `search_invoices`. -/
structure SearchResult where
  invoices : List StoredInvoice
  total_count : ℤ
  page : ℤ
  per_page : ℤ
  total_pages : ℤ
deriving DecidableEq

/-- `search_invoices(filters, page, per_page)`: filter, order, count the
unpaged matches, then `LIMIT per_page OFFSET (page-1)*per_page`, and
`total_pages = (total_count + per_page - 1) // per_page` (Python floor
division).  The model covers the source's call contract `page ≥ 1`,
`per_page ≥ 1` (SQLite treats a negative LIMIT as unlimited, which is
outside that contract and not modelled). -/
def search_invoices (rows : List StoredInvoice) (f : SearchFilters)
    (page : ℤ) (per_page : ℤ) : SearchResult :=
  let ordered := sortBy orderLe (rows.filter (rowMatches f))
  let total_count : ℤ := ordered.length
  let offset := (page - 1) * per_page
  { invoices := (ordered.drop offset.toNat).take per_page.toNat
    total_count := total_count
    page := page
    per_page := per_page
    total_pages := Int.fdiv (total_count + per_page - 1) per_page }

end InvoiceDB

open AnomalyDetector InvoiceDB

/-- Trivial fitted-model predicate used to instantiate witnesses on small
datasets (for fewer than 10 records the statistical detector never consults
the model). -/
def iso0 : ℚ → Bool := fun _ => false


lemma mem_flag_if {c : Prop} [Decidable c] {x s : String} :
    x ∈ (if c then [s] else []) ↔ c ∧ x = s := by
  split <;> simp_all

lemma mem_flag_if2 {c d : Prop} [Decidable c] [Decidable d] {x s1 s2 : String} :
    x ∈ (if c then [s1] else if d then [s2] else []) ↔
      (c ∧ x = s1) ∨ (¬c ∧ d ∧ x = s2) := by
  split
  · simp_all
  · split <;> simp_all

lemma analyze_flags_eq (iso : ℚ → Bool) (invoice : Invoice) (all : Option (List Invoice)) :
    (analyze_invoice iso invoice all).flags =
      check_business_rules invoice all ++
      check_statistical_anomalies iso invoice all ++
      check_vendor_behavior invoice ++ check_temporal_anomalies invoice all := rfl

lemma check_vendor_eq_nil (invoice : Invoice) : check_vendor_behavior invoice = [] := by
  unfold check_vendor_behavior check_vendor_behavior_with get_vendor_statistics
  split <;> rfl

lemma mem_check_temporal {invoice : Invoice} {all : Option (List Invoice)} {f : String}
    (h : f ∈ check_temporal_anomalies invoice all) : f = "WEEKEND_INVOICE" := by
  unfold check_temporal_anomalies at h
  rcases hd : invoice.invoiceDate with _ | d <;> simp only [hd] at h
  · simp at h
  · rw [mem_flag_if] at h
    exact h.2

lemma mem_check_statistical {iso : ℚ → Bool} {invoice : Invoice}
    {all : Option (List Invoice)} {f : String}
    (h : f ∈ check_statistical_anomalies iso invoice all) :
    f = "STATISTICAL_OUTLIER" ∨ f = "EXTREME_Z_SCORE" ∨ f = "IQR_OUTLIER" := by
  rcases all with _ | l
  · simp [check_statistical_anomalies] at h
  · simp only [check_statistical_anomalies] at h
    split at h
    · simp at h
    · simp only [List.mem_append, mem_flag_if] at h
      tauto

lemma mem_check_business {invoice : Invoice} {all : Option (List Invoice)} {f : String}
    (h : f ∈ check_business_rules invoice all) :
    f = "POTENTIAL_DUPLICATE" ∨ f = "EXTREME_AMOUNT_HIGH" ∨ f = "EXTREME_AMOUNT_LOW" ∨
    f = "ROUND_AMOUNT_SUSPICIOUS" ∨ f = "TAX_CALCULATION_ANOMALY" ∨
    f = "MISSING_VENDOR_INFO" ∨ f = "MISSING_INVOICE_ID" := by
  unfold check_business_rules at h
  rcases ht : invoice.taxAmount with _ | t <;> simp only [ht] at h <;>
    simp only [List.mem_append, mem_flag_if, mem_flag_if2, List.not_mem_nil] at h <;>
    tauto

lemma tax_mem_business {invoice : Invoice} {all : Option (List Invoice)} :
    "TAX_CALCULATION_ANOMALY" ∈ check_business_rules invoice all ↔
      ∃ t, invoice.taxAmount = some t ∧ 0 < t ∧
        1 < |t - round2 (invoice.totalAmount * (1/10))| := by
  unfold check_business_rules
  rcases ht : invoice.taxAmount with _ | t <;>
    simp only [ht, List.mem_append, mem_flag_if, mem_flag_if2, List.not_mem_nil,
      Bool.and_eq_true, decide_eq_true_eq] <;>
    simp [gt_iff_lt]

lemma mem_analyze_flags {iso : ℚ → Bool} {invoice : Invoice} {all : Option (List Invoice)}
    {f : String} :
    f ∈ (analyze_invoice iso invoice all).flags ↔
      f ∈ check_business_rules invoice all ∨
      f ∈ check_statistical_anomalies iso invoice all ∨
      f ∈ check_temporal_anomalies invoice all := by
  rw [analyze_flags_eq]
  simp [check_vendor_eq_nil, or_assoc]

/-- C2: for an invoice with a non-sentinel vendor, the vendor-behavior check
with historical statistics available (positive historical mean) flags
`VENDOR_AMOUNT_DEVIATION` exactly when the amount exceeds 3 times the
historical mean and `EXCEEDS_VENDOR_HISTORICAL_MAX` exactly when it exceeds
1.5 times the historical max; with no vendor history it produces no flags
and does not fail — and since the repository's `_get_vendor_statistics` is
a placeholder returning `None`, the scoring path itself always takes the
no-history branch. -/
theorem C2_vendor_behavior (invoice : Invoice) (s : VendorStats)
    (hv1 : invoice.vendorName ≠ "UNKNOWN_VENDOR") (hv2 : invoice.vendorName ≠ "NOT_FOUND")
    (havg : 0 < s.avg_amount) :
    (("VENDOR_AMOUNT_DEVIATION" ∈ check_vendor_behavior_with invoice (some s)) ↔
      3 * s.avg_amount < invoice.totalAmount) ∧
    (("EXCEEDS_VENDOR_HISTORICAL_MAX" ∈ check_vendor_behavior_with invoice (some s)) ↔
      s.max_amount * (3/2) < invoice.totalAmount) ∧
    check_vendor_behavior_with invoice none = [] ∧
    check_vendor_behavior invoice = [] := by
  have hguard : (invoice.vendorName == "UNKNOWN_VENDOR" ||
      invoice.vendorName == "NOT_FOUND") = false := by
    simp [hv1, hv2]
  have hbody : check_vendor_behavior_with invoice (some s) =
      (if invoice.totalAmount / s.avg_amount > 3 then ["VENDOR_AMOUNT_DEVIATION"] else []) ++
      (if invoice.totalAmount > s.max_amount * (3/2) then
        ["EXCEEDS_VENDOR_HISTORICAL_MAX"] else []) := by
    simp [check_vendor_behavior_with, hguard, havg]
  refine ⟨?_, ?_, ?_, check_vendor_eq_nil invoice⟩
  · rw [hbody]
    simp only [List.mem_append, mem_flag_if]
    simp [gt_iff_lt, lt_div_iff₀ havg]
  · rw [hbody]
    simp only [List.mem_append, mem_flag_if]
    simp [gt_iff_lt]
  · simp [check_vendor_behavior_with, hguard]

/-- Witness for C2 at a concrete invoice and statistics record. -/
theorem C2_witness :
    (("VENDOR_AMOUNT_DEVIATION" ∈ check_vendor_behavior_with
      { invoiceId := "INV-2", vendorName := "Acme", totalAmount := 7000,
        taxAmount := none, invoiceDate := some 0 }
      (some { avg_amount := 2000, max_amount := 4000, std_amount := 0 })) ↔
      (3 : ℚ) * 2000 < 7000) ∧
    (("EXCEEDS_VENDOR_HISTORICAL_MAX" ∈ check_vendor_behavior_with
      { invoiceId := "INV-2", vendorName := "Acme", totalAmount := 7000,
        taxAmount := none, invoiceDate := some 0 }
      (some { avg_amount := 2000, max_amount := 4000, std_amount := 0 })) ↔
      (4000 : ℚ) * (3/2) < 7000) ∧
    check_vendor_behavior_with
      { invoiceId := "INV-2", vendorName := "Acme", totalAmount := 7000,
        taxAmount := none, invoiceDate := some 0 } none = [] ∧
    check_vendor_behavior
      { invoiceId := "INV-2", vendorName := "Acme", totalAmount := 7000,
        taxAmount := none, invoiceDate := some 0 } = [] :=
  C2_vendor_behavior _ _ (by decide) (by decide) (by norm_num)

/-- C5: with no dataset, or a dataset of fewer than 10 records, the
statistical detector contributes zero flags (and scoring proceeds): none of
the three statistical flags can appear in the result of `analyze_invoice`. -/
theorem C5_insufficient_sample (iso : ℚ → Bool) (invoice : Invoice)
    (all : Option (List Invoice)) (h : ∀ l, all = some l → l.length < 10) :
    check_statistical_anomalies iso invoice all = [] ∧
    "STATISTICAL_OUTLIER" ∉ (analyze_invoice iso invoice all).flags ∧
    "EXTREME_Z_SCORE" ∉ (analyze_invoice iso invoice all).flags ∧
    "IQR_OUTLIER" ∉ (analyze_invoice iso invoice all).flags := by
  have hstat : check_statistical_anomalies iso invoice all = [] := by
    rcases all with _ | l
    · rfl
    · simp only [check_statistical_anomalies]
      rw [if_pos (h l rfl)]
  refine ⟨hstat, ?_, ?_, ?_⟩ <;>
  · intro hmem
    rw [mem_analyze_flags, hstat] at hmem
    rcases hmem with hmem | hmem | hmem
    · rcases mem_check_business hmem with h'|h'|h'|h'|h'|h'|h' <;> simp at h'
    · simp at hmem
    · have h' := mem_check_temporal hmem
      simp at h'

/-- A small concrete invoice used by witnesses. -/
def w5inv : Invoice :=
  { invoiceId := "INV-5", vendorName := "Acme", totalAmount := 100,
    taxAmount := none, invoiceDate := some 0 }

/-- Witness for C5 on a one-record dataset. -/
theorem C5_witness :
    check_statistical_anomalies iso0 w5inv (some [w5inv]) = [] ∧
    "STATISTICAL_OUTLIER" ∉ (analyze_invoice iso0 w5inv (some [w5inv])).flags :=
  ⟨(C5_insufficient_sample iso0 w5inv (some [w5inv]) (by intro l hl; cases hl; decide)).1,
   (C5_insufficient_sample iso0 w5inv (some [w5inv]) (by intro l hl; cases hl; decide)).2.1⟩

/-- C10: updating the status of an `invoice_id` that has no row in the
invoices table still returns `True` and still appends a `STATUS_UPDATE`
entry to the processing log for that nonexistent id (the invoices table is
untouched). -/
theorem C10_update_status_missing_id (db : DBState) (id : String) (status : String)
    (notes : Option String) (h : ∀ r ∈ db.invoices, r.invoice_id ≠ id) :
    (update_invoice_status db (some id) status notes).2 = true ∧
    (update_invoice_status db (some id) status notes).1.invoices = db.invoices ∧
    ∃ details, (update_invoice_status db (some id) status notes).1.processing_log =
      db.processing_log ++
        [{ invoice_id := id, action := "STATUS_UPDATE", details := details }] := by
  refine ⟨rfl, ?_, ⟨_, rfl⟩⟩
  have hmap : ∀ r ∈ db.invoices,
      (if r.invoice_id == id then { r with status := status } else r) = r := by
    intro r hr
    simp [beq_iff_eq, h r hr]
  have hred : (update_invoice_status db (some id) status notes).1.invoices =
      db.invoices.map
        (fun r => if r.invoice_id == id then { r with status := status } else r) := rfl
  rw [hred, List.map_congr_left hmap, List.map_id']

/-- Witness for C10 on the empty store. -/
theorem C10_witness :
    (update_invoice_status DBState.init (some "INV-404") "Approved" none).2 = true ∧
    (update_invoice_status DBState.init (some "INV-404") "Approved" none).1.invoices =
      DBState.init.invoices ∧
    ∃ details, (update_invoice_status DBState.init (some "INV-404")
        "Approved" none).1.processing_log =
      DBState.init.processing_log ++
        [{ invoice_id := "INV-404", action := "STATUS_UPDATE", details := details }] :=
  C10_update_status_missing_id DBState.init "INV-404" "Approved" none
    (by intro r hr; simp [DBState.init] at hr)

/-- The amount-based bonus of the claimed risk-score formula: +2 for
amounts over 10,000, else +1 for amounts over 5,000, else 0 (the bonus
`_calculate_risk_level` adds to its local copy of the score). -/
def specAmountBonus (amount : ℚ) : ℕ :=
  if amount > 10000 then 2 else if amount > 5000 then 1 else 0

lemma calculate_risk_level_eq (rs : ℕ) (amount : ℚ) :
    calculate_risk_level rs amount =
      (if 5 ≤ rs + specAmountBonus amount then "High"
       else if 3 ≤ rs + specAmountBonus amount then "Medium" else "Low") := by
  unfold calculate_risk_level specAmountBonus
  by_cases h1 : amount > 10000
  · simp [h1]
  · by_cases h2 : amount > 5000
    · simp [h1, h2]
    · simp [h1, h2]

lemma calculate_risk_level_spec (rs : ℕ) (amount : ℚ) :
    (calculate_risk_level rs amount = "High" ↔ 5 ≤ rs + specAmountBonus amount) ∧
    (calculate_risk_level rs amount = "Medium" ↔
      3 ≤ rs + specAmountBonus amount ∧ rs + specAmountBonus amount < 5) ∧
    (calculate_risk_level rs amount = "Low" ↔ rs + specAmountBonus amount < 3) := by
  rw [calculate_risk_level_eq]
  refine ⟨?_, ?_, ?_⟩ <;> split_ifs <;> first
    | (simp_all; omega)
    | simp_all

/-- A flagless invoice over the 10,000 amount threshold, refuting the
claimed formula for the returned risk score. -/
def c1inv : Invoice :=
  { invoiceId := "INV-1", vendorName := "Acme", totalAmount := 20001,
    taxAmount := none, invoiceDate := some 0 }

/-- C1, counterexample: for this invoice (amount 20,001, no flags of any
detector), the claim's formula demands riskScore = 0 + 2·0 + 0 + 0 + 2 = 2
(amount bonus +2 since 20,001 > 10,000), but `analyze_invoice` returns
riskScore 0: the bonus is added only inside `_calculate_risk_level` to a
local copy and never enters the returned score. -/
theorem C1_counterexample :
    ¬((analyze_invoice iso0 c1inv (some [c1inv])).risk_score =
      (check_business_rules c1inv (some [c1inv])).length +
      2 * (check_statistical_anomalies iso0 c1inv (some [c1inv])).length +
      (check_vendor_behavior c1inv).length +
      (check_temporal_anomalies c1inv (some [c1inv])).length +
      specAmountBonus c1inv.totalAmount) := by
  have h1 : check_business_rules c1inv (some [c1inv]) = [] := by
    norm_num [check_business_rules, is_duplicate_invoice, c1inv, List.filter]
    decide
  have h2 : check_statistical_anomalies iso0 c1inv (some [c1inv]) = [] := by
    simp [check_statistical_anomalies]
  have h4 : check_temporal_anomalies c1inv (some [c1inv]) = [] := by
    norm_num [check_temporal_anomalies, c1inv, weekday]
  have hbonus : specAmountBonus c1inv.totalAmount = 2 := by
    norm_num [specAmountBonus, c1inv]
  have hscore : (analyze_invoice iso0 c1inv (some [c1inv])).risk_score =
      (check_business_rules c1inv (some [c1inv])).length +
      (check_statistical_anomalies iso0 c1inv (some [c1inv])).length * 2 +
      (check_vendor_behavior c1inv).length +
      (check_temporal_anomalies c1inv (some [c1inv])).length := rfl
  intro h
  rw [h1, h2, check_vendor_eq_nil, h4] at h hscore
  rw [hbonus] at h
  simp at h hscore
  omega

/-- C1, amended: the riskScore returned by `analyze_invoice` equals
(rule-engine flags) + 2 × (statistical flags) + (vendor flags) +
(temporal flags) — with no amount bonus — while the returned riskLevel is
obtained from that score plus the amount bonus (+2 if amount > 10,000,
else +1 if amount > 5,000, exactly one, never both): High iff the adjusted
score is ≥ 5, Medium iff it is ≥ 3 and < 5, Low otherwise. -/
theorem C1_risk_score_and_level (iso : ℚ → Bool) (invoice : Invoice)
    (all : Option (List Invoice)) :
    (analyze_invoice iso invoice all).risk_score =
      (check_business_rules invoice all).length +
      2 * (check_statistical_anomalies iso invoice all).length +
      (check_vendor_behavior invoice).length +
      (check_temporal_anomalies invoice all).length ∧
    ((analyze_invoice iso invoice all).risk_level = "High" ↔
      5 ≤ (analyze_invoice iso invoice all).risk_score +
        specAmountBonus invoice.totalAmount) ∧
    ((analyze_invoice iso invoice all).risk_level = "Medium" ↔
      3 ≤ (analyze_invoice iso invoice all).risk_score +
        specAmountBonus invoice.totalAmount ∧
      (analyze_invoice iso invoice all).risk_score +
        specAmountBonus invoice.totalAmount < 5) ∧
    ((analyze_invoice iso invoice all).risk_level = "Low" ↔
      (analyze_invoice iso invoice all).risk_score +
        specAmountBonus invoice.totalAmount < 3) := by
  have hscore : (analyze_invoice iso invoice all).risk_score =
      (check_business_rules invoice all).length +
      (check_statistical_anomalies iso invoice all).length * 2 +
      (check_vendor_behavior invoice).length +
      (check_temporal_anomalies invoice all).length := rfl
  have hlevel : (analyze_invoice iso invoice all).risk_level =
      calculate_risk_level ((analyze_invoice iso invoice all).risk_score)
        invoice.totalAmount := rfl
  refine ⟨by omega, ?_, ?_, ?_⟩ <;> rw [hlevel]
  · exact (calculate_risk_level_spec _ _).1
  · exact (calculate_risk_level_spec _ _).2.1
  · exact (calculate_risk_level_spec _ _).2.2

lemma rat_floor_eval {x : ℚ} {z : ℤ} (h1 : (z : ℚ) ≤ x) (h2 : x < z + 1) : x.floor = z := by
  have hle : z ≤ x.floor := Rat.le_floor.mpr h1
  have hlt : x.floor ≤ z := by
    by_contra hc
    push_neg at hc
    have hcast : ((z + 1 : ℤ) : ℚ) ≤ x := Rat.le_floor.mp (by omega)
    push_cast at hcast
    linarith
  omega

/-- C4 witness input: tax 20 on amount 100 (far from the expected 10). -/
def wt4 : Invoice :=
  { invoiceId := "INV-W4", vendorName := "Acme", totalAmount := 100,
    taxAmount := some 20, invoiceDate := some 0 }

/-- C4 counterexample input (a): tax amount present but zero. -/
def cx4a : Invoice :=
  { invoiceId := "INV-4A", vendorName := "Acme", totalAmount := 100,
    taxAmount := some 0, invoiceDate := some 0 }

/-- C4 counterexample input (b): the tax 2.008 differs from the exact
10% expectation 1.007 by 1.001 (more than $1), but from the code's rounded
expectation `round(1.007, 2) = 1.01` by only 0.998 (not more than $1). -/
def cx4b : Invoice :=
  { invoiceId := "INV-4B", vendorName := "Acme", totalAmount := 10.07,
    taxAmount := some 2.008, invoiceDate := some 0 }

lemma tax_not_mem_analyze {inv : Invoice} {t : ℚ} (hta : inv.taxAmount = some t)
    (hncond : ¬(0 < t ∧ 1 < |t - round2 (inv.totalAmount * (1/10))|)) :
    "TAX_CALCULATION_ANOMALY" ∉ (analyze_invoice iso0 inv (some [inv])).flags := by
  intro hmem
  rw [mem_analyze_flags] at hmem
  rcases hmem with h | h | h
  · rcases tax_mem_business.mp h with ⟨t', ht', hpos, hgt⟩
    rw [hta] at ht'
    injection ht' with he
    subst he
    exact hncond ⟨hpos, hgt⟩
  · rcases mem_check_statistical h with h|h|h <;> simp at h
  · have h' := mem_check_temporal h
    simp at h'

lemma round2_cx4b : round2 ((10.07 : ℚ) * (1/10)) = 101/100 := by
  have hx : ((10.07 : ℚ) * (1/10)) = 1007/1000 := by norm_num
  rw [hx]
  have hf : ((1007/1000 : ℚ) * 100).floor = 100 :=
    rat_floor_eval (by norm_num) (by norm_num)
  simp only [round2, roundHalfEven, hf]
  norm_num

/-- C4, counterexample: (a) an invoice with a present tax amount of zero and
total 100 is, per the claim, to be flagged (|0 − 10| > 1), but the code
requires `tax_amount > 0` and produces no flag; (b) an invoice with total
10.07 and tax 2.008 differs from total × 0.10 by 1.001 > 1, so the claim
demands a flag, but the code compares against `round(total × 0.1, 2)` =
1.01 at distance 0.998 and produces no flag. -/
theorem C4_counterexample :
    (¬(("TAX_CALCULATION_ANOMALY" ∈ (analyze_invoice iso0 cx4a (some [cx4a])).flags) ↔
      1 < |(0 : ℚ) - cx4a.totalAmount * (1/10)|)) ∧
    cx4a.taxAmount = some 0 ∧
    (¬(("TAX_CALCULATION_ANOMALY" ∈ (analyze_invoice iso0 cx4b (some [cx4b])).flags) ↔
      1 < |(2.008 : ℚ) - cx4b.totalAmount * (1/10)|)) ∧
    cx4b.taxAmount = some 2.008 := by
  refine ⟨?_, rfl, ?_, rfl⟩
  · intro hiff
    have hmem := hiff.mpr (by norm_num [cx4a])
    exact tax_not_mem_analyze rfl (by norm_num) hmem
  · intro hiff
    have habs : |(2.008 : ℚ) - cx4b.totalAmount * (1/10)| = 1001/1000 := by
      rw [show (2.008 : ℚ) - cx4b.totalAmount * (1/10) = 1001/1000 by norm_num [cx4b]]
      exact abs_of_pos (by norm_num)
    have hmem := hiff.mpr (by rw [habs]; norm_num)
    refine tax_not_mem_analyze rfl ?_ hmem
    rw [show cx4b.totalAmount = (10.07 : ℚ) from rfl, round2_cx4b]
    have habs2 : |(2.008 : ℚ) - 101/100| = 499/500 := by
      rw [show (2.008 : ℚ) - 101/100 = 499/500 by norm_num]
      exact abs_of_pos (by norm_num)
    rw [habs2]
    norm_num

/-- C4, amended: for every invoice whose tax amount is present and strictly
positive, `TAX_CALCULATION_ANOMALY` is among the produced flags iff the tax
amount differs from `round(total_amount × 0.10, 2)` by more than $1.00
(a present tax amount of zero is skipped by the `> 0` guard). -/
theorem C4_tax_flag (iso : ℚ → Bool) (invoice : Invoice) (all : Option (List Invoice))
    (t : ℚ) (ht : invoice.taxAmount = some t) (hpos : 0 < t) :
    ("TAX_CALCULATION_ANOMALY" ∈ (analyze_invoice iso invoice all).flags) ↔
      1 < |t - round2 (invoice.totalAmount * (1/10))| := by
  rw [mem_analyze_flags]
  constructor
  · rintro (h | h | h)
    · rcases tax_mem_business.mp h with ⟨t', ht', _, hgt⟩
      rw [ht] at ht'
      injection ht' with he
      subst he
      exact hgt
    · rcases mem_check_statistical h with h'|h'|h' <;> simp at h'
    · have h' := mem_check_temporal h
      simp at h'
  · intro hgt
    exact Or.inl (tax_mem_business.mpr ⟨t, ht, hpos, hgt⟩)

/-- Witness for C4 (amended) at tax 20 on amount 100. -/
theorem C4_witness :
    ("TAX_CALCULATION_ANOMALY" ∈ (analyze_invoice iso0 wt4 (some [wt4])).flags) ↔
      1 < |(20 : ℚ) - round2 (wt4.totalAmount * (1/10))| :=
  C4_tax_flag iso0 wt4 (some [wt4]) 20 rfl (by norm_num)

lemma potential_dup_mem {invoice : Invoice} {all : Option (List Invoice)} :
    ("POTENTIAL_DUPLICATE" ∈ check_business_rules invoice all) ↔
      is_duplicate_invoice invoice all = true := by
  unfold check_business_rules
  rcases ht : invoice.taxAmount with _ | t <;>
    simp only [ht, List.mem_append, mem_flag_if, mem_flag_if2, List.not_mem_nil] <;>
    simp

/-- Invoice A of the claim's fuzzy-duplicate example: $12,500, day 0. -/
def dupA : Invoice :=
  { invoiceId := "A-1", vendorName := "Acme", totalAmount := 12500,
    taxAmount := none, invoiceDate := some 0 }

/-- Invoice B of the claim's fuzzy-duplicate example: $12,550, 3 days later. -/
def dupB3 : Invoice :=
  { invoiceId := "A-2", vendorName := "Acme", totalAmount := 12550,
    taxAmount := none, invoiceDate := some 3 }

/-- Same invoice B but dated 30 days after A. -/
def dupB30 : Invoice :=
  { invoiceId := "A-2", vendorName := "Acme", totalAmount := 12550,
    taxAmount := none, invoiceDate := some 30 }

/-- C3: for a non-sentinel invoice, the duplicate check returns true (and
`POTENTIAL_DUPLICATE` is flagged) iff more than one record of the working
set shares the (vendor, id) pair, or some other same-vendor record with a
different id has an amount within 1% of the candidate's and a parseable
date within 7 days of the candidate's parseable date; in particular the
$12,500/$12,550 pair 3 days apart is flagged on both sides, and the same
pair 30 days apart on neither. -/
theorem C3_duplicate_detection :
    (∀ (invoice : Invoice) (all : List Invoice),
      invoice.vendorName ≠ "UNKNOWN_VENDOR" → invoice.invoiceId ≠ "NOT_FOUND" →
      (is_duplicate_invoice invoice (some all) = true ↔
        (1 < (all.filter fun r =>
          r.vendorName == invoice.vendorName && r.invoiceId == invoice.invoiceId).length) ∨
        (∃ r ∈ all, r.vendorName = invoice.vendorName ∧ r.invoiceId ≠ invoice.invoiceId ∧
          |r.totalAmount - invoice.totalAmount| ≤ invoice.totalAmount * (1/100) ∧
          ∃ d d2, invoice.invoiceDate = some d ∧ r.invoiceDate = some d2 ∧ |d2 - d| ≤ 7)) ∧
      (("POTENTIAL_DUPLICATE" ∈ check_business_rules invoice (some all)) ↔
        is_duplicate_invoice invoice (some all) = true)) ∧
    is_duplicate_invoice dupA (some [dupA, dupB3]) = true ∧
    is_duplicate_invoice dupB3 (some [dupA, dupB3]) = true ∧
    is_duplicate_invoice dupA (some [dupA, dupB30]) = false ∧
    is_duplicate_invoice dupB30 (some [dupA, dupB30]) = false := by
  refine ⟨?_, ?_, ?_, ?_, ?_⟩
  · intro invoice all hv hid
    have hguard : (invoice.vendorName == "UNKNOWN_VENDOR" ||
        invoice.invoiceId == "NOT_FOUND") = false := by
      simp [hv, hid]
    refine ⟨?_, potential_dup_mem⟩
    by_cases hex : 1 < (all.filter fun r =>
        r.vendorName == invoice.vendorName && r.invoiceId == invoice.invoiceId).length
    · have hl : is_duplicate_invoice invoice (some all) = true := by
        simp [is_duplicate_invoice, hguard, hex]
      simp only [hl, true_iff]
      exact Or.inl hex
    · rcases hd : invoice.invoiceDate with _ | d
      · have hl : is_duplicate_invoice invoice (some all) = false := by
          simp [is_duplicate_invoice, hguard, hex, hd]
        simp only [hl, Bool.false_eq_true, false_iff, not_or]
        refine ⟨hex, ?_⟩
        rintro ⟨r, _, _, _, _, d, d2, hds, _⟩
        simp at hds
      · have hl : is_duplicate_invoice invoice (some all) =
            (all.filter fun r => r.vendorName == invoice.vendorName &&
              decide (|r.totalAmount - invoice.totalAmount| ≤
                invoice.totalAmount * (1/100)) &&
              r.invoiceId != invoice.invoiceId).any fun r =>
                match r.invoiceDate with
                | some d2 => decide (|d2 - d| ≤ 7)
                | none => false := by
          simp [is_duplicate_invoice, hguard, hex, hd]
        rw [hl]
        constructor
        · intro hany
          rcases List.any_eq_true.mp hany with ⟨r, hrmem, hrdate⟩
          rcases List.mem_filter.mp hrmem with ⟨hrall, hrcond⟩
          simp only [Bool.and_eq_true, beq_iff_eq, bne_iff_ne, decide_eq_true_eq] at hrcond
          rcases hx : r.invoiceDate with _ | d2 <;> rw [hx] at hrdate
          · simp at hrdate
          · refine Or.inr ⟨r, hrall, hrcond.1.1, hrcond.2, hrcond.1.2,
              d, d2, rfl, hx, by simpa using hrdate⟩
        · rintro (h | ⟨r, hrall, hrv, hrid, hramt, d', d2, hds, hds2, hdd⟩)
          · exact absurd h hex
          · injection hds with he
            subst he
            refine List.any_eq_true.mpr ⟨r, List.mem_filter.mpr ⟨hrall, ?_⟩, ?_⟩
            · simp only [Bool.and_eq_true, beq_iff_eq, bne_iff_ne, decide_eq_true_eq]
              exact ⟨⟨hrv, hramt⟩, hrid⟩
            · rw [hds2]
              simpa using hdd
  · norm_num [is_duplicate_invoice, dupA, dupB3, List.filter, List.any, abs_le]
    decide
  · norm_num [is_duplicate_invoice, dupA, dupB3, List.filter, List.any, abs_le]
    decide
  · norm_num [is_duplicate_invoice, dupA, dupB30, List.filter, List.any, abs_le]
    decide
  · norm_num [is_duplicate_invoice, dupA, dupB30, List.filter, List.any, abs_le]
    decide

/-- Witness for C3 at the concrete fuzzy-duplicate pair. -/
theorem C3_witness :
    ("POTENTIAL_DUPLICATE" ∈ check_business_rules dupA (some [dupA, dupB3])) ↔
      is_duplicate_invoice dupA (some [dupA, dupB3]) = true :=
  (C3_duplicate_detection.1 dupA [dupA, dupB3] (by decide) (by decide)).2

lemma mem_analyze_universe {iso : ℚ → Bool} {invoice : Invoice}
    {all : Option (List Invoice)} {f : String}
    (h : f ∈ (analyze_invoice iso invoice all).flags) :
    f = "POTENTIAL_DUPLICATE" ∨ f = "EXTREME_AMOUNT_HIGH" ∨ f = "EXTREME_AMOUNT_LOW" ∨
    f = "ROUND_AMOUNT_SUSPICIOUS" ∨ f = "TAX_CALCULATION_ANOMALY" ∨
    f = "MISSING_VENDOR_INFO" ∨ f = "MISSING_INVOICE_ID" ∨
    f = "STATISTICAL_OUTLIER" ∨ f = "EXTREME_Z_SCORE" ∨ f = "IQR_OUTLIER" ∨
    f = "WEEKEND_INVOICE" := by
  rw [mem_analyze_flags] at h
  rcases h with h | h | h
  · rcases mem_check_business h with h|h|h|h|h|h|h <;> tauto
  · rcases mem_check_statistical h with h|h|h <;> tauto
  · have h' := mem_check_temporal h
    tauto

/-- C8: malformed or sentinel input degrades gracefully in `analyze_invoice`
(whose every exception path is caught, so the embedding is a total
function): a missing/unparseable invoice date yields no weekend flag and
restricts the duplicate check to the exact-id path (the fuzzy date window
is skipped as a non-match); a sentinel vendor or id produces the
corresponding MISSING flag; an absent tax amount yields no tax flag; and
when only data-quality flags are present (no duplicate, extreme-amount, or
statistical flag) the resulting anomaly category is "Data Quality Issue"
rather than a fault. -/
theorem C8_graceful_degradation (iso : ℚ → Bool) (invoice : Invoice)
    (all : Option (List Invoice)) :
    (invoice.invoiceDate = none →
      "WEEKEND_INVOICE" ∉ (analyze_invoice iso invoice all).flags ∧
      ∀ l, all = some l →
        is_duplicate_invoice invoice (some l) =
          (!(invoice.vendorName == "UNKNOWN_VENDOR" || invoice.invoiceId == "NOT_FOUND") &&
           decide (1 < (l.filter fun r =>
             r.vendorName == invoice.vendorName &&
             r.invoiceId == invoice.invoiceId).length))) ∧
    ((invoice.vendorName = "UNKNOWN_VENDOR" ∨ invoice.vendorName = "NOT_FOUND") →
      "MISSING_VENDOR_INFO" ∈ (analyze_invoice iso invoice all).flags) ∧
    ((invoice.invoiceId = "NOT_FOUND" ∨ invoice.invoiceId = "UNKNOWN") →
      "MISSING_INVOICE_ID" ∈ (analyze_invoice iso invoice all).flags) ∧
    (invoice.taxAmount = none →
      "TAX_CALCULATION_ANOMALY" ∉ (analyze_invoice iso invoice all).flags) ∧
    (("MISSING_VENDOR_INFO" ∈ (analyze_invoice iso invoice all).flags ∨
      "MISSING_INVOICE_ID" ∈ (analyze_invoice iso invoice all).flags) →
      (∀ f ∈ (analyze_invoice iso invoice all).flags,
        f ≠ "POTENTIAL_DUPLICATE" ∧ f ≠ "EXTREME_AMOUNT_HIGH" ∧ f ≠ "EXTREME_AMOUNT_LOW" ∧
        f ≠ "STATISTICAL_OUTLIER" ∧ f ≠ "EXTREME_Z_SCORE" ∧ f ≠ "IQR_OUTLIER") →
      (analyze_invoice iso invoice all).anomaly_type = "Data Quality Issue") := by
  refine ⟨?_, ?_, ?_, ?_, ?_⟩
  · intro hd
    constructor
    · intro hmem
      rw [mem_analyze_flags] at hmem
      rcases hmem with h | h | h
      · rcases mem_check_business h with h'|h'|h'|h'|h'|h'|h' <;> simp at h'
      · rcases mem_check_statistical h with h'|h'|h' <;> simp at h'
      · unfold check_temporal_anomalies at h
        rw [hd] at h
        simp at h
    · intro l hl
      subst hl
      by_cases hguard : (invoice.vendorName == "UNKNOWN_VENDOR" ||
          invoice.invoiceId == "NOT_FOUND") = true
      · simp [is_duplicate_invoice, hguard]
      · have hg : (invoice.vendorName == "UNKNOWN_VENDOR" ||
            invoice.invoiceId == "NOT_FOUND") = false := by
          simpa using hguard
        by_cases hex : 1 < (l.filter fun r =>
            r.vendorName == invoice.vendorName && r.invoiceId == invoice.invoiceId).length
        · simp [is_duplicate_invoice, hg, hex, hd]
        · simp [is_duplicate_invoice, hg, hex, hd]
  · intro hv
    rw [mem_analyze_flags]
    left
    have hcond : (invoice.vendorName == "UNKNOWN_VENDOR" ||
        invoice.vendorName == "NOT_FOUND") = true := by
      rcases hv with h | h <;> simp [h]
    unfold check_business_rules
    simp only [List.mem_append, mem_flag_if]
    exact Or.inl (Or.inr ⟨hcond, trivial⟩)
  · intro hid
    rw [mem_analyze_flags]
    left
    have hcond : (invoice.invoiceId == "NOT_FOUND" ||
        invoice.invoiceId == "UNKNOWN") = true := by
      rcases hid with h | h <;> simp [h]
    unfold check_business_rules
    simp only [List.mem_append, mem_flag_if]
    exact Or.inr ⟨hcond, trivial⟩
  · intro hta hmem
    rw [mem_analyze_flags] at hmem
    rcases hmem with h | h | h
    · rcases tax_mem_business.mp h with ⟨t, ht, _, _⟩
      rw [hta] at ht
      simp at ht
    · rcases mem_check_statistical h with h'|h'|h' <;> simp at h'
    · have h' := mem_check_temporal h
      simp at h'
  · intro hm hexcl
    have hatype : (analyze_invoice iso invoice all).anomaly_type =
        categorize_anomaly (analyze_invoice iso invoice all).flags := rfl
    rw [hatype]
    have h1 : "POTENTIAL_DUPLICATE" ∉ (analyze_invoice iso invoice all).flags :=
      fun hmem => ((hexcl _ hmem).1 rfl)
    have h2 : (analyze_invoice iso invoice all).flags.any
        (fun f => pyStartsWith f "EXTREME_AMOUNT") = false := by
      rw [List.any_eq_false]
      intro f hf
      rcases mem_analyze_universe hf with h|h|h|h|h|h|h|h|h|h|h <;> subst h <;>
        first
        | exact ((hexcl _ hf).1 rfl).elim
        | exact ((hexcl _ hf).2.1 rfl).elim
        | exact ((hexcl _ hf).2.2.1 rfl).elim
        | decide
    have h3 : (analyze_invoice iso invoice all).flags.any (fun f =>
        f == "STATISTICAL_OUTLIER" || f == "EXTREME_Z_SCORE" ||
        f == "IQR_OUTLIER") = false := by
      rw [List.any_eq_false]
      intro f hf
      have he := hexcl f hf
      simp only [Bool.or_eq_true, beq_iff_eq]
      push_neg
      exact ⟨⟨he.2.2.2.1, he.2.2.2.2.1⟩, he.2.2.2.2.2⟩
    have h4 : (analyze_invoice iso invoice all).flags.any
        (fun f => pyStartsWith f "VENDOR_") = false := by
      rw [List.any_eq_false]
      intro f hf
      rcases mem_analyze_universe hf with h|h|h|h|h|h|h|h|h|h|h <;> subst h <;> decide
    have h5 : (analyze_invoice iso invoice all).flags.any (fun f =>
        f == "MISSING_VENDOR_INFO" || f == "MISSING_INVOICE_ID") = true := by
      rw [List.any_eq_true]
      rcases hm with h | h
      · exact ⟨_, h, by simp⟩
      · exact ⟨_, h, by simp⟩
    simp [categorize_anomaly, h1, h2, h3, h4, h5]

/-- Witness input for C8: sentinel vendor and id, missing date and tax. -/
def w8inv : Invoice :=
  { invoiceId := "UNKNOWN", vendorName := "UNKNOWN_VENDOR", totalAmount := 50,
    taxAmount := none, invoiceDate := none }

/-- Witness for C8 on a fully sentinel-laden invoice. -/
theorem C8_witness :
    "MISSING_VENDOR_INFO" ∈ (analyze_invoice iso0 w8inv (some [w8inv])).flags ∧
    "WEEKEND_INVOICE" ∉ (analyze_invoice iso0 w8inv (some [w8inv])).flags ∧
    "TAX_CALCULATION_ANOMALY" ∉ (analyze_invoice iso0 w8inv (some [w8inv])).flags := by
  have h := C8_graceful_degradation iso0 w8inv (some [w8inv])
  exact ⟨h.2.1 (Or.inl rfl), (h.1 rfl).1, h.2.2.2.1 rfl⟩

lemma mem_insertBy {le : α → α → Bool} {a b : α} {l : List α} :
    b ∈ insertBy le a l ↔ b = a ∨ b ∈ l := by
  induction l with
  | nil => simp [insertBy]
  | cons c t ih =>
    simp only [insertBy]
    split
    · simp [List.mem_cons]
    · simp only [List.mem_cons, ih]
      tauto

lemma mem_sortBy {le : α → α → Bool} {a : α} {l : List α} :
    a ∈ sortBy le l ↔ a ∈ l := by
  induction l with
  | nil => simp [sortBy]
  | cons c t ih =>
    have hstep : sortBy le (c :: t) = insertBy le c (sortBy le t) := rfl
    rw [hstep, mem_insertBy, ih]
    simp [List.mem_cons]

lemma length_insertBy {le : α → α → Bool} {a : α} {l : List α} :
    (insertBy le a l).length = l.length + 1 := by
  induction l with
  | nil => rfl
  | cons c t ih =>
    simp only [insertBy]
    split
    · simp
    · simp [ih]

lemma length_sortBy {le : α → α → Bool} {l : List α} :
    (sortBy le l).length = l.length := by
  induction l with
  | nil => rfl
  | cons c t ih =>
    have hstep : sortBy le (c :: t) = insertBy le c (sortBy le t) := rfl
    rw [hstep, length_insertBy, ih]
    rfl

lemma pages_eq_ceil (t p : ℤ) (hp : 1 ≤ p) :
    Int.fdiv (t + p - 1) p = ⌈(t : ℚ) / (p : ℚ)⌉ := by
  have hp0 : (0 : ℤ) < p := by omega
  rw [Int.fdiv_eq_ediv _ (by omega : (0:ℤ) ≤ p)]
  have hdm : p * ((t + p - 1) / p) + (t + p - 1) % p = t + p - 1 :=
    Int.ediv_add_emod (t + p - 1) p
  have hr0 : 0 ≤ (t + p - 1) % p := Int.emod_nonneg _ (by omega)
  have hrp : (t + p - 1) % p < p := Int.emod_lt_of_pos _ hp0
  have h1 : t ≤ p * ((t + p - 1) / p) := by
    have := Int.lt_iff_add_one_le.mp hrp
    linarith [hdm]
  have h2 : p * ((t + p - 1) / p) - p < t := by linarith [hdm, hr0]
  have hpq : (0 : ℚ) < (p : ℚ) := by exact_mod_cast hp0
  symm
  rw [Int.ceil_eq_iff]
  constructor
  · rw [lt_div_iff₀ hpq]
    have hc : ((p * ((t + p - 1) / p) - p : ℤ) : ℚ) < (t : ℚ) := by exact_mod_cast h2
    push_cast at hc ⊢
    linarith [hc]
  · rw [div_le_iff₀ hpq]
    have hc : (t : ℚ) ≤ ((p * ((t + p - 1) / p) : ℤ) : ℚ) := by exact_mod_cast h1
    push_cast at hc ⊢
    linarith [hc]

/-- C6, counterexample: a row with amount 100; the filter set carries
`max_amount = 0`, so by the claim only records with amount ≤ 0 may be
returned, yet the row is returned: the source guards every filter with
Python truthiness (`if filters.get('max_amount'):`), so a zero bound is
dropped from the query. -/
def c6row : StoredInvoice :=
  { invoice_id := "INV-9", vendor_name := "Acme", invoice_date := 0,
    due_date := none, total_amount := 100, tax_amount := none,
    item_description := "", payment_terms := "", department := "Unknown",
    source_type := "Digital", status := "Pending", risk_level := "Low",
    anomaly_type := "No Anomaly" }

/-- The filter set of the C6 counterexample: only `max_amount = 0`. -/
def c6filters : SearchFilters :=
  { SearchFilters.empty with max_amount := some 0 }

/-- C6, counterexample theorem: with `max_amount` set (to 0) and valid
pagination, `search_invoices` returns a record whose amount exceeds the
bound. -/
theorem C6_counterexample :
    c6filters.max_amount = some 0 ∧
    (search_invoices [c6row] c6filters 1 20).invoices = [c6row] ∧
    ¬(c6row.total_amount ≤ 0) := by
  refine ⟨rfl, ?_, by decide⟩
  decide

/-- C6, amended: with every set filter holding a truthy value — SQL-falsy
bounds (`0` amounts, empty strings) are treated as unset, exactly as the
source's truthiness guards do — search returns only records satisfying
every given predicate (in particular `min_amount ≤ total_amount ≤
max_amount` for set nonzero bounds), a `total_count` equal to the number of
matching records ignoring pagination, `total_pages = ⌈total_count /
per_page⌉`, and, for a page past the last one, an empty record set with the
same counts rather than an error. -/
theorem C6_search_pagination (rows : List StoredInvoice) (f : SearchFilters)
    (page per_page : ℤ) (_hpage : 1 ≤ page) (hpp : 1 ≤ per_page) :
    (∀ r ∈ (search_invoices rows f page per_page).invoices, rowMatches f r = true) ∧
    (∀ m, f.min_amount = some m → m ≠ 0 →
      ∀ r ∈ (search_invoices rows f page per_page).invoices, m ≤ r.total_amount) ∧
    (∀ m, f.max_amount = some m → m ≠ 0 →
      ∀ r ∈ (search_invoices rows f page per_page).invoices, r.total_amount ≤ m) ∧
    (search_invoices rows f page per_page).total_count =
      ((rows.filter (rowMatches f)).length : ℤ) ∧
    (search_invoices rows f page per_page).total_pages =
      ⌈(((rows.filter (rowMatches f)).length : ℚ)) / ((per_page : ℤ) : ℚ)⌉ ∧
    ((search_invoices rows f page per_page).total_count ≤ (page - 1) * per_page →
      (search_invoices rows f page per_page).invoices = []) := by
  have hinv : (search_invoices rows f page per_page).invoices =
      ((sortBy orderLe (rows.filter (rowMatches f))).drop
        ((page - 1) * per_page).toNat).take per_page.toNat := rfl
  have hcount : (search_invoices rows f page per_page).total_count =
      ((sortBy orderLe (rows.filter (rowMatches f))).length : ℤ) := rfl
  have hpages : (search_invoices rows f page per_page).total_pages =
      Int.fdiv (((sortBy orderLe (rows.filter (rowMatches f))).length : ℤ) +
        per_page - 1) per_page := rfl
  have hlen : (sortBy orderLe (rows.filter (rowMatches f))).length =
      (rows.filter (rowMatches f)).length := length_sortBy
  have hmem : ∀ r ∈ (search_invoices rows f page per_page).invoices,
      rowMatches f r = true := by
    intro r hr
    rw [hinv] at hr
    exact (List.mem_filter.mp (mem_sortBy.mp
      (List.mem_of_mem_drop (List.mem_of_mem_take hr)))).2
  refine ⟨hmem, ?_, ?_, by rw [hcount, hlen], ?_, ?_⟩
  · intro m hm hm0 r hr
    have hr' := hmem r hr
    simp only [rowMatches, Bool.and_eq_true] at hr'
    have hcomp := hr'.1.1.1.1.2
    rw [hm] at hcomp
    simp only [beq_iff_eq] at hcomp
    rw [if_neg hm0] at hcomp
    simpa [ge_iff_le] using hcomp
  · intro m hm hm0 r hr
    have hr' := hmem r hr
    simp only [rowMatches, Bool.and_eq_true] at hr'
    have hcomp := hr'.1.1.1.2
    rw [hm] at hcomp
    simp only [beq_iff_eq] at hcomp
    rw [if_neg hm0] at hcomp
    simpa using hcomp
  · rw [hpages, hlen]
    exact pages_eq_ceil _ _ hpp
  · intro hge
    rw [hcount] at hge
    rw [hinv]
    have hdrop : (sortBy orderLe (rows.filter (rowMatches f))).length ≤
        ((page - 1) * per_page).toNat := by omega
    rw [List.drop_eq_nil_of_le hdrop]
    simp

/-- Witness for C6 (amended) on the singleton store of the counterexample
row with the empty filter set, page 1, 20 per page. -/
theorem C6_witness :
    (search_invoices [c6row] SearchFilters.empty 1 20).total_count =
      (([c6row].filter (rowMatches SearchFilters.empty)).length : ℤ) ∧
    (search_invoices [c6row] SearchFilters.empty 1 20).total_pages =
      ⌈((([c6row].filter (rowMatches SearchFilters.empty)).length : ℚ)) /
        (((20 : ℤ)) : ℚ)⌉ :=
  ⟨(C6_search_pagination [c6row] SearchFilters.empty 1 20
      (by norm_num) (by norm_num)).2.2.2.1,
   (C6_search_pagination [c6row] SearchFilters.empty 1 20
      (by norm_num) (by norm_num)).2.2.2.2.1⟩

/-- The referential invariant of claim C7: every anomaly row has a parent
invoice row. -/
def noOrphans (db : DBState) : Prop :=
  ∀ a ∈ db.anomalies, ∃ r ∈ db.invoices, r.invoice_id = a.invoice_id

/-- The orphan anomaly row produced by the C7 counterexample. -/
def c7row : AnomalyRow :=
  { invoice_id := "INV-404", anomaly_type := "POTENTIAL_DUPLICATE",
    description := "Possible duplicate", severity := "High", amount_impact := 0 }

/-- One-operation store sequence inserting an anomaly for a never-saved id. -/
def c7ops : List StoreOp :=
  [StoreOp.anomaly (some "INV-404") (some "POTENTIAL_DUPLICATE")
    "Possible duplicate" "High" 0]

/-- C7, counterexample: a store-operation sequence consisting of a single
successful `save_anomaly` for an id with no invoice row leaves the
anomalies table with a row whose `invoice_id` has no parent in the invoices
table — the source never enables SQLite foreign-key enforcement and does
not check the parent itself. -/
theorem C7_counterexample :
    (applyOp DBState.init (StoreOp.anomaly (some "INV-404")
      (some "POTENTIAL_DUPLICATE") "Possible duplicate" "High" 0)).2 = true ∧
    (runOps c7ops).invoices = [] ∧
    (runOps c7ops).anomalies ≠ [] ∧
    ¬ noOrphans (runOps c7ops) := by
  refine ⟨rfl, rfl, by decide, ?_⟩
  intro hno
  rcases hno c7row (by decide) with ⟨r, hr, _⟩
  have hinv : (runOps c7ops).invoices = [] := rfl
  rw [hinv] at hr
  exact absurd hr (List.not_mem_nil r)

/-- C7, amended: every failing store write returns `False` and leaves the
whole store — hence every other invoice's rows — unchanged (per-invoice
atomicity of `save_invoice`'s two-statement transaction); the no-orphan
invariant, however, is preserved only under the precondition that
`save_anomaly` is invoked with an id already present in the invoices table:
the store itself does not enforce the declared foreign key. -/
theorem C7_per_invoice_atomicity :
    (∀ db inp, (save_invoice db inp).2 = false → (save_invoice db inp).1 = db) ∧
    (∀ db id t d s a, (save_anomaly db id t d s a).2 = false →
      (save_anomaly db id t d s a).1 = db) ∧
    (∀ db id st n, (update_invoice_status db id st n).2 = false →
      (update_invoice_status db id st n).1 = db) ∧
    (∀ db op, noOrphans db →
      (∀ oid oty od os oa, op = StoreOp.anomaly oid oty od os oa →
        ∀ i, oid = some i → ∃ r ∈ db.invoices, r.invoice_id = i) →
      noOrphans (applyOp db op).1) := by
  refine ⟨?_, ?_, ?_, ?_⟩
  · intro db inp h
    obtain ⟨oid, ov, odt, oam, odd, ota, oit, opt, odp, osrc, ost, orl, oat⟩ := inp
    rcases oid with _ | id <;> rcases ov with _ | v <;>
      rcases odt with _ | dt <;> rcases oam with _ | am <;>
      simp_all [save_invoice]
  · intro db id t d s a h
    rcases id with _ | i <;> rcases t with _ | ty <;> simp_all [save_anomaly]
  · intro db id st n h
    rcases id with _ | i <;> simp_all [update_invoice_status]
  · intro db op hno hpre
    cases op with
    | save inp =>
      obtain ⟨oid, ov, odt, oam, odd, ota, oit, opt, odp, osrc, ost, orl, oat⟩ := inp
      rcases oid with _ | id
      · exact hno
      · rcases ov with _ | v
        · exact hno
        · rcases odt with _ | dt
          · exact hno
          · rcases oam with _ | am
            · exact hno
            · intro a ha
              rcases hno a ha with ⟨r, hr, hre⟩
              by_cases hcase : r.invoice_id = id
              · refine ⟨_, List.mem_append.mpr (Or.inr (List.mem_singleton.mpr rfl)), ?_⟩
                show id = a.invoice_id
                rw [← hcase]
                exact hre
              · refine ⟨r, List.mem_append.mpr (Or.inl ?_), hre⟩
                exact List.mem_filter.mpr ⟨hr, by simp [hcase]⟩
    | anomaly oid oty od os oa =>
      rcases oid with _ | i
      · exact hno
      · rcases oty with _ | ty
        · exact hno
        · intro a ha
          rcases List.mem_append.mp ha with h | h
          · exact hno a h
          · have heq := List.mem_singleton.mp h
            subst heq
            rcases hpre (some i) (some ty) od os oa rfl i rfl with ⟨r, hr, hre⟩
            exact ⟨r, hr, hre⟩
    | statusUpdate oid ost onotes =>
      rcases oid with _ | i
      · exact hno
      · intro a ha
        rcases hno a ha with ⟨r, hr, hre⟩
        refine ⟨(if r.invoice_id == i then { r with status := ost } else r),
          List.mem_map_of_mem _ hr, ?_⟩
        split
        · exact hre
        · exact hre

/-- A well-formed `save_invoice` input used by witnesses. -/
def w9inp : SaveInvoiceInput :=
  { invoice_id := some "INV-9", vendor_name := some "Acme", invoice_date := some 0,
    total_amount := some 100, due_date := none, tax_amount := none,
    item_description := "", payment_terms := "", department := "Unknown",
    source_type := "Digital", status := "Pending", risk_level := "Low",
    anomaly_type := "No Anomaly" }

/-- A `save_invoice` input whose required `invoice_id` is `None`, so the
`NOT NULL` constraint makes the write fail. -/
def badInp : SaveInvoiceInput :=
  { invoice_id := none, vendor_name := some "Acme", invoice_date := some 0,
    total_amount := some 100, due_date := none, tax_amount := none,
    item_description := "", payment_terms := "", department := "Unknown",
    source_type := "Digital", status := "Pending", risk_level := "Low",
    anomaly_type := "No Anomaly" }

/-- Witness for C7 (amended): a failing save leaves the store unchanged, and
a successful save preserves the no-orphan invariant from the empty store. -/
theorem C7_witness :
    (save_invoice DBState.init badInp).1 = DBState.init ∧
    noOrphans (applyOp DBState.init (StoreOp.save w9inp)).1 :=
  ⟨C7_per_invoice_atomicity.1 DBState.init badInp rfl,
   C7_per_invoice_atomicity.2.2.2 DBState.init (StoreOp.save w9inp)
    (by intro a ha; exact absurd ha (List.not_mem_nil a))
    (by intro oid oty od os oa h; cases h)⟩

/-- The per-id uniqueness invariant of claim C9 on the invoices table. -/
def uniqueIds (db : DBState) : Prop :=
  db.invoices.Pairwise fun a b => a.invoice_id ≠ b.invoice_id

lemma pairwise_filter_append {l : List StoredInvoice} (row : StoredInvoice)
    (h : l.Pairwise fun a b => a.invoice_id ≠ b.invoice_id) :
    ((l.filter fun r => r.invoice_id ≠ row.invoice_id) ++ [row]).Pairwise
      (fun a b => a.invoice_id ≠ b.invoice_id) := by
  rw [List.pairwise_append]
  refine ⟨h.sublist (List.filter_sublist _), List.pairwise_singleton _ _, ?_⟩
  intro x hx y hy
  have hxne := (List.mem_filter.mp hx).2
  have hy' := List.mem_singleton.mp hy
  subst hy'
  simpa using hxne

lemma uniqueIds_applyOp (db : DBState) (op : StoreOp) (h : uniqueIds db) :
    uniqueIds (applyOp db op).1 := by
  cases op with
  | save inp =>
    obtain ⟨oid, ov, odt, oam, odd, ota, oit, opt2, odp, osrc, ost2, orl, oat⟩ := inp
    rcases oid with _ | id
    · exact h
    · rcases ov with _ | v
      · exact h
      · rcases odt with _ | dt
        · exact h
        · rcases oam with _ | am
          · exact h
          · exact pairwise_filter_append
              { invoice_id := id, vendor_name := v, invoice_date := dt,
                due_date := odd, total_amount := am, tax_amount := ota,
                item_description := oit, payment_terms := opt2, department := odp,
                source_type := osrc, status := ost2, risk_level := orl,
                anomaly_type := oat } h
  | anomaly oid oty od os oa =>
    rcases oid with _ | i
    · exact h
    · rcases oty with _ | ty
      · exact h
      · exact h
  | statusUpdate oid ost2 onotes =>
    rcases oid with _ | i
    · exact h
    · have hgid : ∀ r : StoredInvoice,
          ((if r.invoice_id == i then { r with status := ost2 } else r) :
            StoredInvoice).invoice_id = r.invoice_id := by
        intro r
        split
        · rfl
        · rfl
      exact List.Pairwise.map _ (fun a b hab => by rw [hgid, hgid]; exact hab) h

lemma save_invoice_success_shape (db : DBState) (inp : SaveInvoiceInput) (id : String)
    (hid : inp.invoice_id = some id) (hsucc : (save_invoice db inp).2 = true) :
    ∃ row : StoredInvoice, row.invoice_id = id ∧
      (save_invoice db inp).1.invoices =
        (db.invoices.filter fun r => r.invoice_id ≠ id) ++ [row] := by
  obtain ⟨oid, ov, odt, oam, odd, ota, oit, opt2, odp, osrc, ost2, orl, oat⟩ := inp
  simp only at hid
  subst hid
  rcases ov with _ | v
  · simp [save_invoice] at hsucc
  · rcases odt with _ | dt
    · simp [save_invoice] at hsucc
    · rcases oam with _ | am
      · simp [save_invoice] at hsucc
      · exact ⟨_, rfl, rfl⟩

/-- C9: starting from the initialized store, after any sequence of store
operations the invoices table holds pairwise-distinct invoice ids (exactly
one row per id); a successful re-save with an already-stored id leaves
exactly one row with that id and keeps every other invoice's row; and the
anomalies and processing-log tables only ever grow (append-only). -/
theorem C9_idempotent_overwrite :
    (∀ ops : List StoreOp, uniqueIds (runOps ops)) ∧
    (∀ db inp id, inp.invoice_id = some id → (save_invoice db inp).2 = true →
      ((save_invoice db inp).1.invoices.filter fun r => r.invoice_id == id).length = 1 ∧
      ∀ r ∈ db.invoices, r.invoice_id ≠ id → r ∈ (save_invoice db inp).1.invoices) ∧
    (∀ db op, (∃ t, (applyOp db op).1.anomalies = db.anomalies ++ t) ∧
      (∃ t, (applyOp db op).1.processing_log = db.processing_log ++ t)) := by
  refine ⟨?_, ?_, ?_⟩
  · intro ops
    suffices hgen : ∀ (ops : List StoreOp) (db : DBState), uniqueIds db →
        uniqueIds (ops.foldl (fun db op => (applyOp db op).1) db) by
      exact hgen ops DBState.init List.Pairwise.nil
    intro ops
    induction ops with
    | nil => intro db h; exact h
    | cons o t ih =>
      intro db h
      exact ih _ (uniqueIds_applyOp db o h)
  · intro db inp id hid hsucc
    rcases save_invoice_success_shape db inp id hid hsucc with ⟨row, hrow, hshape⟩
    constructor
    · rw [hshape, List.filter_append]
      have hleft : (db.invoices.filter fun r => r.invoice_id ≠ id).filter
          (fun r => r.invoice_id == id) = [] := by
        rw [List.filter_eq_nil_iff]
        intro a ha
        have h2 := (List.mem_filter.mp ha).2
        simp only [decide_eq_true_eq] at h2
        simp [h2]
      rw [hleft, List.nil_append]
      simp [hrow]
    · intro r hr hne
      rw [hshape]
      exact List.mem_append.mpr (Or.inl (List.mem_filter.mpr ⟨hr, by simp [hne]⟩))
  · intro db op
    cases op with
    | save inp =>
      obtain ⟨oid, ov, odt, oam, odd, ota, oit, opt2, odp, osrc, ost2, orl, oat⟩ := inp
      rcases oid with _ | id
      · exact ⟨⟨[], (List.append_nil _).symm⟩, ⟨[], (List.append_nil _).symm⟩⟩
      · rcases ov with _ | v
        · exact ⟨⟨[], (List.append_nil _).symm⟩, ⟨[], (List.append_nil _).symm⟩⟩
        · rcases odt with _ | dt
          · exact ⟨⟨[], (List.append_nil _).symm⟩, ⟨[], (List.append_nil _).symm⟩⟩
          · rcases oam with _ | am
            · exact ⟨⟨[], (List.append_nil _).symm⟩, ⟨[], (List.append_nil _).symm⟩⟩
            · exact ⟨⟨[], (List.append_nil _).symm⟩, ⟨_, rfl⟩⟩
    | anomaly oid oty od os oa =>
      rcases oid with _ | i
      · exact ⟨⟨[], (List.append_nil _).symm⟩, ⟨[], (List.append_nil _).symm⟩⟩
      · rcases oty with _ | ty
        · exact ⟨⟨[], (List.append_nil _).symm⟩, ⟨[], (List.append_nil _).symm⟩⟩
        · exact ⟨⟨_, rfl⟩, ⟨[], (List.append_nil _).symm⟩⟩
    | statusUpdate oid ost2 onotes =>
      rcases oid with _ | i
      · exact ⟨⟨[], (List.append_nil _).symm⟩, ⟨[], (List.append_nil _).symm⟩⟩
      · exact ⟨⟨[], (List.append_nil _).symm⟩, ⟨_, rfl⟩⟩

/-- Witness for C9: re-saving the same record twice from the empty store
keeps ids unique, and the successful save holds exactly one row for the id. -/
theorem C9_witness :
    uniqueIds (runOps [StoreOp.save w9inp, StoreOp.save w9inp]) ∧
    ((save_invoice DBState.init w9inp).1.invoices.filter
      fun r => r.invoice_id == "INV-9").length = 1 :=
  ⟨C9_idempotent_overwrite.1 [StoreOp.save w9inp, StoreOp.save w9inp],
   (C9_idempotent_overwrite.2.1 DBState.init w9inp "INV-9" rfl rfl).1⟩
